import Mathlib

/-!
Verification of the bnb-master rule-evaluation engine.

Shallow embedding of `src/bnb_checker.py` (the `AirbnbCheckerRules` engine and
its field-coercion helpers) and of the deduplication step of
`src/bnb_filter.py` (`process_and_split_csv`).

Modelling conventions:
- Registry fields arrive as `Option String` (`none` = JSON null / key absent;
  numeric JSON scalars are modelled through their string rendering, matching
  the Python code's `str(x)` coercions).
- Python `None`-propagating coercions (`_to_int`, `_to_float`) become
  `Option`-valued functions; `_parse_yyyymmdd` becomes `Except`-valued over
  an `Option`, since its `int()` calls sit outside its `try` and can raise.
- Python floats are modelled as `ℚ`.  The numeric-literal grammar modelled for
  `float(s)` is the sign/digits/decimal-point form the registry emits;
  exponent forms, `inf`/`nan` and digit-group underscores are not modelled.
- A Python exception inside the engine is modelled by `Except`: the
  exceptions reachable from `run` are a propagated gateway error, the
  `ValueError` raised by `int()` inside the date parser (its guard uses
  `str.isdigit`, which accepts digit characters `int()` rejects), and the
  `TypeError` raised by an ordering comparison between `None` and `int`.
- `print`/report formatting is not modelled, except where a formatted string
  is decision-relevant: the rule-outcome `detail` strings, which `run` sniffs
  for the missing-value sentinel "값이 없어".
-/

namespace Bnb

/-! ### Character-list string primitives (Python `in`, `strip`, `replace`) -/

/-- `leadMatch pat s`: `pat` is an initial run of `s` (character-wise). -/
def leadMatch : List Char → List Char → Bool
  | [], _ => true
  | _ :: _, [] => false
  | a :: as, b :: bs => a == b && leadMatch as bs

/-- `subSearch pat s`: `pat` occurs contiguously somewhere in `s`
    (Python `pat in s`). -/
def subSearch (pat : List Char) : List Char → Bool
  | [] => leadMatch pat []
  | b :: t => leadMatch pat (b :: t) || subSearch pat t

/-- Python `pat in s` on strings. -/
def strContains (s pat : String) : Bool :=
  subSearch pat.toList s.toList

/-- Python whitespace for `str.strip()` (default argument): space, tab,
    newline, carriage return, vertical tab, form feed.  (Python also strips
    some exotic Unicode whitespace; registry data contains none.) -/
def isPySpace (c : Char) : Bool :=
  c == ' ' || c == '\t' || c == '\n' || c == '\r' || c == '\x0b' || c == '\x0c'

/-- Python `s.strip()`. -/
def strip (s : String) : String :=
  String.mk (((s.toList.dropWhile isPySpace).reverse.dropWhile isPySpace).reverse)

/-- Python `s.replace(" ", "")`. -/
def removeSpaces (s : String) : String :=
  String.mk (s.toList.filter (fun c => c != ' '))

/-- Python `v or dflt` on an optional string: `None` and `""` are falsy. -/
def pyOrV (v : Option String) (dflt : String) : String :=
  match v with
  | none => dflt
  | some s => if s == "" then dflt else s

/-- Python `s or dflt` on a plain string: `""` is falsy. -/
def pyNonEmpty (s dflt : String) : String :=
  if s == "" then dflt else s

/-! ### Numeric-string rendering (decision-relevant part of the f-strings)

The engine interpolates numbers into rule-outcome `detail` strings, and later
sniffs those strings for the missing-value sentinel.  We render numbers with
our own digit formatter; its one decision-relevant property is that it emits
ASCII only (so it can never contain the Korean sentinel). -/

def digitChar (n : Nat) : Char :=
  match n with
  | 0 => '0' | 1 => '1' | 2 => '2' | 3 => '3' | 4 => '4'
  | 5 => '5' | 6 => '6' | 7 => '7' | 8 => '8' | _ => '9'

/-- Decimal digits of `n`, most significant first; `[]` for `n = 0`.
    Fuel-structured so that it reduces in the kernel. -/
def natDigsAux : Nat → Nat → List Char
  | 0, _ => []
  | fuel + 1, n => if n = 0 then [] else natDigsAux fuel (n / 10) ++ [digitChar (n % 10)]

/-- Python `str(n)` for a natural number. -/
def natStr (n : Nat) : String :=
  if n = 0 then "0" else String.mk (natDigsAux (n + 1) n)

/-- Python `str(i)` for an integer. -/
def intStr (i : Int) : String :=
  if i < 0 then "-" ++ natStr i.natAbs else natStr i.natAbs

/-- Two-decimal rendering of a rational (models the `:.2f` interpolation of
    the area value; computed with integer arithmetic only.  The exact rounding
    of Python's float formatting is display-only and not decision-relevant). -/
def fmt2 (a : ℚ) : String :=
  let neg := a < 0
  let b := if neg then -a else a
  let cents : Int := Int.fdiv (200 * b.num + b.den) (2 * b.den)
  let ip := cents.tdiv 100
  let fp := cents.emod 100
  (if neg then "-" else "") ++ natStr ip.natAbs ++ "." ++
    (if fp < 10 then "0" else "") ++ natStr fp.natAbs

/-! ### Field coercions (`_to_int`, `_to_float`, `_parse_yyyymmdd`, `_years_since`) -/

/-- Value of a digit string (caller guarantees digits). -/
def digitsToNat (l : List Char) : Nat :=
  l.foldl (fun a c => a * 10 + (c.toNat - 48)) 0

/-- Unsigned decimal literal: `digits`, `digits.digits`, `digits.` or
    `.digits` (Python `float` grammar restricted to the forms above). -/
def parseUnsigned (l : List Char) : Option ℚ :=
  let ip := l.takeWhile Char.isDigit
  let rest := l.drop ip.length
  match rest with
  | [] => if ip.isEmpty then none else some (digitsToNat ip : ℚ)
  | '.' :: fp =>
    if fp.all Char.isDigit && !(ip.isEmpty && fp.isEmpty) then
      some ((digitsToNat ip : ℚ) + (digitsToNat fp : ℚ) / ((10 : ℚ) ^ fp.length))
    else none
  | _ => none

/-- Python `float(str(x).strip())` with `None`/empty/malformed ↦ absent:
    the source's `_to_float`. -/
def toFloatOpt (v : Option String) : Option ℚ :=
  match v with
  | none => none
  | some s0 =>
    let t := strip s0
    if t == "" then none
    else
      match t.toList with
      | '-' :: rest => (parseUnsigned rest).map (fun q => -q)
      | '+' :: rest => parseUnsigned rest
      | l => parseUnsigned l

/-- Truncation toward zero, as Python `int(float)`. -/
def qTrunc (q : ℚ) : Int :=
  Int.tdiv q.num q.den

/-- The source's `_to_int`: `int(float(str(x).strip()))` with failures ↦ absent. -/
def toIntOpt (v : Option String) : Option Int :=
  (toFloatOpt v).map qTrunc

/-- A calendar date as Python's `datetime.date` holds it. -/
structure YMD where
  y : Nat
  m : Nat
  d : Nat
deriving DecidableEq, Repr

def isLeap (y : Nat) : Bool :=
  (y % 4 == 0 && y % 100 != 0) || y % 400 == 0

def daysInMonth (y m : Nat) : Nat :=
  if m == 2 then (if isLeap y then 29 else 28)
  else if m == 4 || m == 6 || m == 9 || m == 11 then 30
  else 31

/-- The constraints Python's `date(y, m, d)` constructor enforces
    (`MINYEAR = 1`, `MAXYEAR = 9999`). -/
def validYMD (y m d : Nat) : Bool :=
  decide (1 ≤ y ∧ y ≤ 9999 ∧ 1 ≤ m ∧ m ≤ 12 ∧ 1 ≤ d ∧ d ≤ daysInMonth y m)

/-- The Python exceptions reachable from the engine. -/
inductive PyExc where
  /-- An error raised inside the API client and propagated unchanged. -/
  | gatewayError (msg : String)
  /-- Python `ValueError`: `int()` on a string that is not a decimal
      numeral (raised by the unguarded `int()` calls of `_parse_yyyymmdd`,
      line 145, which sit outside its `try`). -/
  | valueError
  /-- Python `TypeError`: ordering comparison between `None` and `int`. -/
  | typeError
deriving DecidableEq, Repr

/-- The value of a character as a decimal digit accepted by Python's `int()`
    (the Unicode Nd category).  Modelled over the Nd ranges the registry and
    the theorems exercise — ASCII, Arabic-Indic, Extended Arabic-Indic,
    Devanagari and fullwidth digits; Python's table is the full Nd
    category. -/
def decDigitVal (c : Char) : Option Nat :=
  let n := c.toNat
  if 0x30 ≤ n ∧ n ≤ 0x39 then some (n - 0x30)
  else if 0x660 ≤ n ∧ n ≤ 0x669 then some (n - 0x660)
  else if 0x6F0 ≤ n ∧ n ≤ 0x6F9 then some (n - 0x6F0)
  else if 0x966 ≤ n ∧ n ≤ 0x96F then some (n - 0x966)
  else if 0xFF10 ≤ n ∧ n ≤ 0xFF19 then some (n - 0xFF10)
  else none

/-- Python's per-character `str.isdigit`: true for the decimal (Nd) digits
    `int()` accepts, and also for digit-valued characters outside Nd that
    `int()` rejects — here the superscript digits ⁰¹²³⁴⁵⁶⁷⁸⁹ and the
    subscript digits ₀–₉ (Python's table is the full set of characters with
    Unicode Numeric_Type Digit or Decimal). -/
def pyIsDigit (c : Char) : Bool :=
  let n := c.toNat
  (decDigitVal c).isSome ||
    n == 0xB9 || n == 0xB2 || n == 0xB3 ||
    n == 0x2070 || (decide (0x2074 ≤ n) && decide (n ≤ 0x2079)) ||
    (decide (0x2080 ≤ n) && decide (n ≤ 0x2089))

/-- Python `int(s)` over a string of `isdigit`-true characters: the decimal
    value when every character is an Nd digit; `ValueError` at the first
    digit-valued character outside Nd (such as '²'). -/
def pyIntDigitsAux (acc : Nat) : List Char → Except PyExc Nat
  | [] => Except.ok acc
  | c :: rest =>
    match decDigitVal c with
    | some v => pyIntDigitsAux (acc * 10 + v) rest
    | none => Except.error PyExc.valueError

def pyIntDigits (l : List Char) : Except PyExc Nat :=
  pyIntDigitsAux 0 l

/-- The source's `_parse_yyyymmdd`.  A string that after stripping is not 8
    `isdigit`-true characters yields absent; the three `int()` slices are
    evaluated OUTSIDE the `try` (line 145), so a digit-classified character
    that is not a decimal digit raises an uncaught `ValueError`; only the
    `date(y, m, d)` construction is guarded, an unconstructible date yielding
    absent. -/
def parseYyyymmdd (s : Option String) : Except PyExc (Option YMD) :=
  match s with
  | none => Except.ok none
  | some v =>
    let t := (strip v).toList
    if t.length == 8 && t.all pyIsDigit then
      match pyIntDigits (t.take 4), pyIntDigits ((t.drop 4).take 2), pyIntDigits (t.drop 6) with
      | Except.error e, _, _ => Except.error e
      | _, Except.error e, _ => Except.error e
      | _, _, Except.error e => Except.error e
      | Except.ok y, Except.ok m, Except.ok d =>
        if validYMD y m d then Except.ok (some ⟨y, m, d⟩) else Except.ok none
    else Except.ok none

/-- Proleptic-Gregorian day ordinal (as `date.toordinal`), used for the
    day difference `(today - d).days`. -/
def toOrdinal (dt : YMD) : Nat :=
  let y := dt.y - 1
  let before := 365 * y + y / 4 - y / 100 + y / 400
  let months := [31, if isLeap dt.y then 29 else 28, 31, 30, 31, 30, 31, 31, 30, 31, 30, 31]
  before + ((months.take (dt.m - 1)).foldl (· + ·) 0) + dt.d

/-- Round to one decimal (models Python `round(x, 1)`; the float
    half-even-vs-half-up difference is display-only). -/
def roundTo1 (q : ℚ) : ℚ :=
  ((Int.fdiv (20 * q.num + q.den) (2 * q.den) : ℚ)) / 10

/-- The source's `_years_since`: absent date ↦ absent age, else the day
    difference over the mean Gregorian year length, rounded to one decimal. -/
def yearsSince (d : Option YMD) (today : YMD) : Option ℚ :=
  d.map (fun dd =>
    roundTo1 ((((toOrdinal today : Int) - (toOrdinal dd : Int) : Int) : ℚ) * 10000 / 3652425))

/-! ### Classification helpers (`classify_structure`, `detect_house_type`) -/

/-- The source's `classify_structure`: space-insensitive substring tests in
    priority order; reinforced-concrete needs both tokens; no match returns
    the argument unchanged. -/
def classifyStructure (strctName : String) : String :=
  let s := removeSpaces strctName
  if s == "" then "미확인"
  else if strContains s "철근" && strContains s "콘크리트" then "철근콘크리트(RC)"
  else if strContains s "벽돌" then "벽돌"
  else if strContains s "철골" then "철골"
  else if strContains s "목" then "목구조"
  else strctName

/-- The haystack `detect_house_type` searches: both purpose strings joined
    with a space, then all spaces removed. -/
def hayOf (mainPurpose etcPurpose : String) : String :=
  removeSpaces (mainPurpose ++ " " ++ etcPurpose)

/-- The source's `detect_house_type`: substring tests on the joined purpose
    text, most specific first; the umbrella fallback tests the raw
    `main_purpose` argument. -/
def detectHouseType (mainPurpose etcPurpose : String) : String :=
  let hay := hayOf mainPurpose etcPurpose
  if strContains hay "다가구" then "다가구주택"
  else if strContains hay "다세대" then "다세대주택"
  else if strContains hay "연립" then "연립주택"
  else if strContains hay "아파트" then "아파트"
  else if strContains hay "단독" then "단독주택"
  else if strContains mainPurpose "공동주택" then "공동주택(세부미상)"
  else "미상"

/-! ### Per-housing-type constraint table (`check_house_type_constraints`) -/

/-- The source's `RuleResult` dataclass. -/
structure RuleResult where
  ok : Bool
  label : String
  detail : String
deriving DecidableEq, Repr

/-- The detail string of a missing-value (soft) outcome; `run` recognizes a
    soft outcome by searching its detail for the substring "값이 없어". -/
def missingDetail : String := "값이 없어 요건 판단이 어렵습니다(API 응답 누락)."

/-- The `need` helper: a failing outcome whose detail is the missing-value
    sentinel. -/
def needRes (name : String) : RuleResult :=
  ⟨false, name ++ " 확인", missingDetail⟩

/-- The `:.2f`-formatted area detail string. -/
def fmtArea (a : ℚ) : String := "면적=" ++ fmt2 a ++ "㎡"

def optList {α : Type} (o : Option α) (f : α → RuleResult) : List RuleResult :=
  match o with
  | none => []
  | some v => [f v]

/-- The source's `check_house_type_constraints`: missing-value warnings for
    the common inputs (total units only when the type text contains "다가구"),
    then the constraint rows of the type's table entry, only for present
    values. -/
def checkHouseTypeConstraints (houseType : String) (grndFloors : Option Int)
    (areaM2 : Option ℚ) (totalUnits : Option Int) : List RuleResult :=
  let needs :=
    (if grndFloors.isNone then [needRes "지상층수"] else [])
    ++ (if areaM2.isNone then [needRes "면적(㎡)"] else [])
    ++ (if strContains houseType "다가구" && totalUnits.isNone then [needRes "총 세대수"] else [])
  let typed :=
    if houseType == "다가구주택" then
      optList grndFloors (fun g => ⟨decide (g ≤ 3), "다가구: 지상층수 ≤ 3", "지상층수=" ++ intStr g⟩)
      ++ optList areaM2 (fun a => ⟨decide (a ≤ 660), "다가구: 면적 ≤ 660㎡", fmtArea a⟩)
      ++ optList totalUnits (fun u => ⟨decide (u ≤ 19), "다가구: 19세대 이하", "총 세대수=" ++ intStr u⟩)
    else if houseType == "다세대주택" then
      optList grndFloors (fun g => ⟨decide (g ≤ 4), "다세대: 지상층수 ≤ 4", "지상층수=" ++ intStr g⟩)
      ++ optList areaM2 (fun a => ⟨decide (a ≤ 660), "다세대: 면적 ≤ 660㎡", fmtArea a⟩)
    else if houseType == "연립주택" then
      optList grndFloors (fun g => ⟨decide (g ≤ 4), "연립: 지상층수 ≤ 4", "지상층수=" ++ intStr g⟩)
      ++ optList areaM2 (fun a => ⟨decide (660 < a), "연립: 면적 > 660㎡", fmtArea a⟩)
    else if houseType == "아파트" then
      optList grndFloors (fun g => ⟨decide (5 ≤ g), "아파트: 지상층수 ≥ 5", "지상층수=" ++ intStr g⟩)
    else if houseType == "단독주택" then
      [⟨true, "단독: 추가요건(표) 없음", "표 상 별도 제한 없음(기본 대상주택)"⟩]
    else []
  needs ++ typed

/-- The hard-failure test (`run`, line 479): a failing outcome whose detail
    does not contain the missing-value sentinel. -/
def hardFailPred (r : RuleResult) : Bool :=
  !r.ok && !(strContains r.detail "값이 없어")

/-! ### Records as fetched by the Gateway -/

/-- One title (`getBrTitleInfo`) record: the raw fields `run` reads, each
    possibly absent. -/
structure TitleRecord where
  platPlc : Option String := none
  newPlatPlc : Option String := none
  bldNm : Option String := none
  mainPurpsCdNm : Option String := none
  etcPurps : Option String := none
  violBldYn : Option String := none
  strctCdNm : Option String := none
  etcStrct : Option String := none
  useAprDay : Option String := none
  grndFlrCnt : Option String := none
  ugrndFlrCnt : Option String := none
  totDongTotArea : Option String := none
  totArea : Option String := none
  hhldCnt : Option String := none
  fmlyCnt : Option String := none
  hoCnt : Option String := none
deriving DecidableEq, Repr

/-- One exclusive-unit (`getBrExposInfo`) record: the fields the per-floor
    aggregation reads. -/
structure ExposUnit where
  dongNm : Option String := none
  flrNo : Option Int := none
deriving DecidableEq, Repr

/-! ### Per-floor aggregation and total-unit resolution -/

/-- Group key of one unit row: dong name (blank ↦ "미상동") and raw floor
    (absent models the "미상층" sentinel). -/
def exposKey (u : ExposUnit) : String × Option Int :=
  (pyNonEmpty (strip (pyOrV u.dongNm "")) "미상동", u.flrNo)

/-- Per-(dong, floor) unit tallies.  (The source additionally sorts the
    groups for the report; the order does not affect the summed total, which
    is the only value the verdict reads.) -/
def unitsPerFloor (expos : List ExposUnit) : List ((String × Option Int) × Nat) :=
  let keys := (expos.map exposKey).eraseDups
  keys.map (fun k => (k, ((expos.map exposKey).filter (fun k2 => k2 == k)).length))

/-- `total_units_from_expos`: sum of the per-floor tallies (`0` when there
    are no rows, matching the source's `else 0`). -/
def totalFromExpos (expos : List ExposUnit) : Int :=
  ((unitsPerFloor expos).foldl (fun acc kv => acc + kv.2) 0 : Nat)

/-- Total-unit resolution (`run`, lines 383-390): first-available-wins over
    `hhldCnt` → `fmlyCnt` → per-floor aggregate (present only when unit
    detail was fetched) → `hoCnt`. -/
def resolveTotalUnits (hhldCnt fmlyCnt hoCnt exposTotal : Option Int) : Option Int :=
  match hhldCnt with
  | some v => some v
  | none =>
    match fmlyCnt with
    | some v => some v
    | none =>
      match exposTotal with
      | some v => some v
      | none => hoCnt

/-! ### Final grading (`run`, lines 521-541) -/

/-- Python `v == n` where `v` may be `None`: `None == int` is `False`,
    never an error. -/
def optEqInt (v : Option Int) (n : Int) : Bool :=
  match v with
  | none => false
  | some k => k == n

/-- Python `v >= n` where `v` may be `None`: comparing `None` with an `int`
    raises `TypeError`. -/
def optGeInt (v : Option Int) (n : Int) : Except PyExc Bool :=
  match v with
  | none => Except.error PyExc.typeError
  | some k => Except.ok (decide (n ≤ k))

/-- Python short-circuit `or`: the right operand is not evaluated (so cannot
    raise) when the left is truthy. -/
def pyOrExc (a b : Except PyExc Bool) : Except PyExc Bool :=
  match a with
  | Except.error e => Except.error e
  | Except.ok true => Except.ok true
  | Except.ok false => b

/-- `(hhld_cnt >= n) or (fmly_cnt >= n) or (ho_cnt >= n)` on the raw,
    possibly-`None` count fields. -/
def anyGe (hhld fmly ho : Option Int) (n : Int) : Except PyExc Bool :=
  pyOrExc (optGeInt hhld n) (pyOrExc (optGeInt fmly n) (optGeInt ho n))

/-- The return-code computation at the end of `run`.  `gf`/`uf`/`_tu`
    substitute 0 for `None` (source lines 523-525); `_tu` is computed by the
    source but never read by the case conditions, which use the raw count
    fields. -/
def finalGrade (grnd ugrnd hhld fmly ho totalUnits : Option Int) : Except PyExc Int :=
  let gf := grnd.getD 0
  let uf := ugrnd.getD 0
  let _tu := totalUnits.getD 0
  if 2 ≤ gf ∧ (optEqInt hhld 1 || optEqInt fmly 1 || optEqInt ho 1) = true then
    Except.ok 1
  else
    match (if gf = 1 ∧ uf ≤ 1 then anyGe hhld fmly ho 1 else Except.ok false) with
    | Except.error e => Except.error e
    | Except.ok true => Except.ok 2
    | Except.ok false =>
      match (if 2 ≤ gf ∧ gf ≤ 4 ∧ uf ≤ 1 then anyGe hhld fmly ho 2 else Except.ok false) with
      | Except.error e => Except.error e
      | Except.ok true => Except.ok 3
      | Except.ok false => Except.ok 4

/-! ### The engine (`AirbnbCheckerRules.run`) -/

/-- `viol_yn = str(title.get("violBldYn") or "0").strip()`; illegal iff the
    stripped flag equals `"1"`. -/
def recordIsViol (t : TitleRecord) : Bool :=
  strip (pyOrV t.violBldYn "0") == "1"

/-- `main_purps`: stripped primary purpose, blank ↦ the "(주용도 없음)"
    placeholder. -/
def mainPurpsOf (t : TitleRecord) : String :=
  pyNonEmpty (strip (pyOrV t.mainPurpsCdNm "")) "(주용도 없음)"

/-- `etc_purps`: stripped secondary purpose. -/
def etcPurpsOf (t : TitleRecord) : String :=
  strip (pyOrV t.etcPurps "")

/-- The housing type `run` classifies for the record. -/
def houseTypeOf (t : TitleRecord) : String :=
  detectHouseType (mainPurpsOf t) (etcPurpsOf t)

/-- `strct_raw = (title.get("strctCdNm") or title.get("etcStrct") or "").strip()`. -/
def structRawOf (t : TitleRecord) : String :=
  strip (pyOrV t.strctCdNm (pyOrV t.etcStrct ""))

def structClassOf (t : TitleRecord) : String :=
  classifyStructure (structRawOf t)

/-- Area for the verdict: `totDongTotArea` preferred, falling back to
    `totArea`. -/
def areaOf (t : TitleRecord) : Option ℚ :=
  match toFloatOpt t.totDongTotArea with
  | some a => some a
  | none => toFloatOpt t.totArea

def grndFloorsOf (t : TitleRecord) : Option Int := toIntOpt t.grndFlrCnt
def ugrndFloorsOf (t : TitleRecord) : Option Int := toIntOpt t.ugrndFlrCnt
def hhldCntOf (t : TitleRecord) : Option Int := toIntOpt t.hhldCnt
def fmlyCntOf (t : TitleRecord) : Option Int := toIntOpt t.fmlyCnt
def hoCntOf (t : TitleRecord) : Option Int := toIntOpt t.hoCnt

/-- Allow-set of housing types (`ALLOWED_HOUSE_TYPES`). -/
def ALLOWED_HOUSE_TYPES : List String :=
  ["단독주택", "다가구주택", "아파트", "연립주택", "다세대주택"]

/-- Disallow keywords (`DISALLOWED_KEYWORDS`). -/
def DISALLOWED_KEYWORDS : List String :=
  ["오피스텔", "원룸", "다중주택", "위법", "위반"]

/-- Stage (b): keywords found in the space-stripped concatenation of both
    purpose strings. -/
def disallowedHits (t : TitleRecord) : List String :=
  let combined := removeSpaces (mainPurpsOf t ++ " " ++ etcPurpsOf t)
  DISALLOWED_KEYWORDS.filter (fun k => strContains combined (removeSpaces k))

/-- Stage (c): with a known area the 230㎡ ceiling must hold strictly;
    an unknown area passes with a warning. -/
def areaGateOk (t : TitleRecord) : Bool :=
  match areaOf t with
  | some a => decide (a < 230)
  | none => true

def totalUnitsOf (t : TitleRecord) (exposData : Option (List ExposUnit)) : Option Int :=
  resolveTotalUnits (hhldCntOf t) (fmlyCntOf t) (hoCntOf t) (exposData.map totalFromExpos)

def ruleResultsOf (t : TitleRecord) (exposData : Option (List ExposUnit)) : List RuleResult :=
  checkHouseTypeConstraints (houseTypeOf t) (grndFloorsOf t) (areaOf t) (totalUnitsOf t exposData)

def hardFails (t : TitleRecord) (exposData : Option (List ExposUnit)) : List RuleResult :=
  (ruleResultsOf t exposData).filter hardFailPred

/-- The gate chain and grading for one fetched title record, given the
    already-parsed use-approval date (`run` binds `use_apr` at line 339,
    before this chain; the age derived from it and the report printing have
    no effect on the returned code). -/
def evalTitle (t : TitleRecord) (useApr : Option YMD) (exposData : Option (List ExposUnit))
    (today : YMD) (requireRc : Bool) : Except PyExc Int :=
  let _ageYears := yearsSince useApr today
  if recordIsViol t then Except.ok 0
  else if !(ALLOWED_HOUSE_TYPES.contains (houseTypeOf t)) then Except.ok 0
  else if !(disallowedHits t).isEmpty then Except.ok 0
  else if !(areaGateOk t) then Except.ok 0
  else if !(hardFails t exposData).isEmpty then Except.ok 0
  else if requireRc && !(structClassOf t == "철근콘크리트(RC)") then Except.ok 0
  else
    finalGrade (grndFloorsOf t) (ugrndFloorsOf t) (hhldCntOf t) (fmlyCntOf t)
      (hoCntOf t) (totalUnitsOf t exposData)

/-- The exclusive-unit fetch, performed only when per-floor detail is
    requested (source line 357; it happens before any gate, so its gateway
    error wins over every disqualification). -/
def fetchExposData (exposFetch : Except String (List ExposUnit)) (includeUnits : Bool) :
    Except String (Option (List ExposUnit)) :=
  if includeUnits then Except.map some exposFetch else Except.ok none

/-- The engine's `run`, over the Gateway responses: a failed fetch is a
    `GatewayError` propagated unchanged; an empty title fetch is "not found"
    (code 0); otherwise the first title record is evaluated.  The date parse
    (source line 339) runs before the exclusive-unit fetch (line 357) and
    before every gate, so its `ValueError` pre-empts everything but the title
    fetch itself. -/
def run (titleFetch : Except String (List TitleRecord))
    (exposFetch : Except String (List ExposUnit)) (today : YMD)
    (requireRc includeUnits : Bool) : Except PyExc Int :=
  match titleFetch with
  | Except.error m => Except.error (PyExc.gatewayError m)
  | Except.ok [] => Except.ok 0
  | Except.ok (title :: _) =>
    match parseYyyymmdd title.useAprDay with
    | Except.error e => Except.error e
    | Except.ok useApr =>
      match fetchExposData exposFetch includeUnits with
      | Except.error m => Except.error (PyExc.gatewayError m)
      | Except.ok exposData => evalTitle title useApr exposData today requireRc

/-! ### Batch ingestion and deduplication (`process_and_split_csv`) -/

/-- One input CSV row: the four key columns (absent column ↦ `""` via
    `row.get(col, "")`). -/
structure CsvRow where
  sigungu : Option String := none
  bjdong : Option String := none
  bun : Option String := none
  ji : Option String := none
deriving DecidableEq, Repr

/-- The stripped, normalized lot-sub of a row: blank ↦ "0000". -/
def normJi (r : CsvRow) : String :=
  let j := strip (r.ji.getD "")
  if j == "" then "0000" else j

/-- Key extraction for one row (`process_and_split_csv`, lines 59-79):
    strip the four columns, normalize blank lot-sub to "0000", and skip the
    row (`none`) when district, neighborhood or lot-main is blank. -/
def rowKey (r : CsvRow) : Option (String × String × String × String) :=
  let sigungu := strip (r.sigungu.getD "")
  let bjdong := strip (r.bjdong.getD "")
  let bun := strip (r.bun.getD "")
  if sigungu == "" || bjdong == "" || bun == "" then none
  else some (sigungu, bjdong, bun, normJi r)

/-- The row as appended to `unique_addresses` (its lot-sub column is
    overwritten with the normalized value, source line 72). -/
def normalizeRow (r : CsvRow) : CsvRow :=
  { r with ji := some (normJi r) }

/-- The dedup loop: keep a row when its key is new, else drop it. -/
def dedupLoop : List CsvRow → List (String × String × String × String) → List CsvRow
  | [], _ => []
  | r :: rest, seen =>
    match rowKey r with
    | none => dedupLoop rest seen
    | some k =>
      if seen.contains k then dedupLoop rest seen
      else normalizeRow r :: dedupLoop rest (k :: seen)

/-- `unique_addresses`: the deduplicated rows, exactly the ones the batch
    then evaluates (one `checker.run` call per element). -/
def uniqueAddresses (rows : List CsvRow) : List CsvRow :=
  dedupLoop rows []

/-! ### Concrete records used by the theorems -/

/-- A fixed "today" for evaluations (the age it yields is informational and
    never read by the verdict). -/
def today0 : YMD := ⟨2026, 10, 12⟩

/-- Single-family record, one ground floor, no basement, all three unit-count
    fields absent — every gate passes and grading reaches the case-2 count
    comparison. -/
def recMissingCounts : TitleRecord :=
  { mainPurpsCdNm := some "단독주택", violBldYn := some "0",
    strctCdNm := some "철근콘크리트구조", grndFlrCnt := some "1", ugrndFlrCnt := some "0" }

/-- Single-family, 3 ground floors, no basement, 2 households. -/
def recGrade3 : TitleRecord :=
  { mainPurpsCdNm := some "단독주택", violBldYn := some "0",
    strctCdNm := some "철근콘크리트구조", grndFlrCnt := some "3", ugrndFlrCnt := some "0",
    hhldCnt := some "2" }

/-- Single-family, 1 ground floor, 1 basement floor, 1 household. -/
def recGrade2 : TitleRecord :=
  { mainPurpsCdNm := some "단독주택", violBldYn := some "0",
    strctCdNm := some "철근콘크리트구조", grndFlrCnt := some "1", ugrndFlrCnt := some "1",
    hhldCnt := some "1" }

/-- Single-family, 5 ground floors, 1 household. -/
def recGrade1 : TitleRecord :=
  { mainPurpsCdNm := some "단독주택", violBldYn := some "0",
    strctCdNm := some "철근콘크리트구조", grndFlrCnt := some "5",
    hhldCnt := some "1" }

/-- Fully compliant single-family record except for the illegal flag. -/
def recIllegal : TitleRecord :=
  { mainPurpsCdNm := some "단독주택", violBldYn := some "1",
    strctCdNm := some "철근콘크리트구조", grndFlrCnt := some "2", ugrndFlrCnt := some "0",
    totArea := some "150", hhldCnt := some "1" }

/-- The record `recIllegal` with a use-approval-date string of eight
    superscript-two characters: `str.isdigit` classifies them as digits, but
    `int()` rejects them, so Python's `run` raises `ValueError` at line 339
    before any gate. -/
def recIllegalPoisonDate : TitleRecord :=
  { recIllegal with useAprDay := some "²²²²²²²²" }

/-- Single-family record with no area field at all, otherwise compliant. -/
def recNoArea : TitleRecord :=
  { mainPurpsCdNm := some "단독주택", violBldYn := some "0",
    strctCdNm := some "철근콘크리트구조", grndFlrCnt := some "2", hhldCnt := some "1" }

/-- Multi-household (다가구주택) record with a 700㎡ area. -/
def recBigArea : TitleRecord :=
  { mainPurpsCdNm := some "다가구주택", violBldYn := some "0",
    strctCdNm := some "철근콘크리트구조", grndFlrCnt := some "3", totArea := some "700",
    hhldCnt := some "10" }

/-- Multi-unit (다세대주택) record with 5 ground floors and no area: its
    only failing type-constraint outcome has a real value in its detail. -/
def recHardFail : TitleRecord :=
  { mainPurpsCdNm := some "다세대주택", violBldYn := some "0",
    strctCdNm := some "철근콘크리트구조", grndFlrCnt := some "5", hhldCnt := some "3" }

/-- Row-house (연립주택) record with a present area below 230㎡. -/
def recRowHouse : TitleRecord :=
  { mainPurpsCdNm := some "연립주택", violBldYn := some "0",
    strctCdNm := some "철근콘크리트구조", grndFlrCnt := some "3", totArea := some "100",
    hhldCnt := some "4" }

/-- Ten exclusive-unit rows (one per floor of one dong). -/
def expos10 : List ExposUnit :=
  (List.range 10).map (fun i => { dongNm := some "에이동", flrNo := some (i : Int) })

/-! ### Helper lemmas -/

theorem run_ok_cons (t : TitleRecord) (rest : List TitleRecord) (units : List ExposUnit)
    (today : YMD) (rc iu : Bool) (useApr : Option YMD)
    (hd : parseYyyymmdd t.useAprDay = Except.ok useApr) :
    run (Except.ok (t :: rest)) (Except.ok units) today rc iu =
      evalTitle t useApr (if iu then some units else none) today rc := by
  have hred : run (Except.ok (t :: rest)) (Except.ok units) today rc iu =
      (match parseYyyymmdd t.useAprDay with
       | Except.error e => Except.error e
       | Except.ok u =>
         match fetchExposData (Except.ok units) iu with
         | Except.error m => Except.error (PyExc.gatewayError m)
         | Except.ok exposData => evalTitle t u exposData today rc) := rfl
  rw [hred, hd]
  cases iu <;> rfl

theorem recordIsViol_of_flag (t : TitleRecord) (h : t.violBldYn = some "1") :
    recordIsViol t = true := by
  unfold recordIsViol
  rw [h]
  rfl

/-- A search for a pattern whose first character does not occur in the
    haystack fails. -/
theorem subSearch_head_notMem (c : Char) (cs : List Char) :
    ∀ s : List Char, c ∉ s → subSearch (c :: cs) s = false := by
  intro s
  induction s with
  | nil => intro _; rfl
  | cons b t ih =>
    intro h
    have hcb : (c == b) = false := by
      have : ¬ c = b := fun hx => h (List.mem_cons.mpr (Or.inl hx))
      simpa using this
    have hct : c ∉ t := fun hx => h (List.mem_cons.mpr (Or.inr hx))
    simp [subSearch, leadMatch, hcb, ih hct]

theorem digitChar_toNat_lt (n : Nat) : (digitChar n).toNat < 128 := by
  unfold digitChar
  split <;> decide

theorem natDigsAux_toNat_lt (fuel : Nat) :
    ∀ (n : Nat) (c : Char), c ∈ natDigsAux fuel n → c.toNat < 128 := by
  induction fuel with
  | zero => intro n c h; simp [natDigsAux] at h
  | succ f ih =>
    intro n c h
    unfold natDigsAux at h
    by_cases hn : n = 0
    · simp [hn] at h
    · rw [if_neg hn] at h
      rcases List.mem_append.mp h with h1 | h2
      · exact ih (n / 10) c h1
      · rcases List.mem_singleton.mp h2 with rfl
        exact digitChar_toNat_lt _

theorem natStr_toNat_lt (n : Nat) (c : Char) (h : c ∈ (natStr n).toList) :
    c.toNat < 128 := by
  unfold natStr at h
  by_cases hn : n = 0
  · rw [if_pos hn] at h
    rcases List.mem_singleton.mp h with rfl
    decide
  · rw [if_neg hn] at h
    exact natDigsAux_toNat_lt _ _ _ h

theorem toList_append (a b : String) : (a ++ b).toList = a.toList ++ b.toList :=
  String.data_append a b

theorem mem_ite_str (P : Prop) [Decidable P] (x y : String) (c : Char)
    (h : c ∈ (if P then x else y).toList) : c ∈ x.toList ∨ c ∈ y.toList := by
  split at h
  · exact Or.inl h
  · exact Or.inr h

theorem fmt2_toNat_lt (a : ℚ) (c : Char) (h : c ∈ (fmt2 a).toList) : c.toNat < 128 := by
  unfold fmt2 at h
  rw [toList_append, toList_append, toList_append, toList_append] at h
  rcases List.mem_append.mp h with h | h
  · rcases List.mem_append.mp h with h | h
    · rcases List.mem_append.mp h with h | h
      · rcases List.mem_append.mp h with h | h
        · rcases mem_ite_str _ _ _ _ h with h | h
          · rcases List.mem_singleton.mp h with rfl; decide
          · simp at h
        · exact natStr_toNat_lt _ _ h
      · rcases List.mem_singleton.mp h with rfl; decide
    · rcases mem_ite_str _ _ _ _ h with h | h
      · rcases List.mem_singleton.mp h with rfl; decide
      · simp at h
  · exact natStr_toNat_lt _ _ h

/-- The formatted area detail never contains the Korean missing-value
    sentinel: it is pure ASCII apart from the fixed "면적"/"㎡" decorations,
    none of which contain the sentinel's first character. -/
theorem fmtArea_sentinel_free (a : ℚ) : strContains (fmtArea a) "값이 없어" = false := by
  have hpat : ("값이 없어" : String).toList = '값' :: ['이', ' ', '없', '어'] := rfl
  have hmem : '값' ∉ (fmtArea a).toList := by
    unfold fmtArea
    rw [toList_append, toList_append]
    intro h
    rcases List.mem_append.mp h with h | h
    · rcases List.mem_append.mp h with h | h
      · revert h; decide
      · exact absurd (fmt2_toNat_lt a _ h) (by decide)
    · revert h; decide
  rw [strContains, hpat]
  exact subSearch_head_notMem _ _ _ hmem

/-! ### Claim theorems -/

/-- Claim C1 (refuted — code bug).  On a title record whose three unit-count
    fields are all absent, with every gate passing (not illegal, allowed
    single-family type, no disallowed keyword, area unknown, no hard
    constraint failure, reinforced-concrete structure), `run` does not return
    a graded code in {1,2,3,4}: the grading cases compare the raw count
    fields with `>=`, so with one ground floor and no basement the case-2
    test evaluates `None >= 1` and raises `TypeError` — contradicting both
    the claim and the source's own line-522 comment that null counts are
    substituted with 0 for the comparisons (the substituted `tu` is computed
    but never read). -/
theorem c1_missing_counts_raise_type_error :
    (hhldCntOf recMissingCounts = none ∧ fmlyCntOf recMissingCounts = none ∧
      hoCntOf recMissingCounts = none ∧ areaOf recMissingCounts = none) ∧
    recordIsViol recMissingCounts = false ∧
    ALLOWED_HOUSE_TYPES.contains (houseTypeOf recMissingCounts) = true ∧
    (disallowedHits recMissingCounts).isEmpty = true ∧
    areaGateOk recMissingCounts = true ∧
    (hardFails recMissingCounts (some [])).isEmpty = true ∧
    structClassOf recMissingCounts = "철근콘크리트(RC)" ∧
    run (Except.ok [recMissingCounts]) (Except.ok []) today0 true true =
      Except.error PyExc.typeError :=
  ⟨⟨rfl, rfl, rfl, rfl⟩, rfl, rfl, rfl, rfl, rfl, rfl, rfl⟩

/-- Claim C2 (confirmed).  The resolved total-unit count is
    first-available-wins over household count → family count → per-floor
    aggregate (present only when unit detail was fetched) → unit count; in
    particular with household=5, family=3, per-floor sum=10, units=7 the
    resolution yields 5. -/
theorem c2_total_unit_resolution_priority :
    (∀ (h : Int) (f o e : Option Int), resolveTotalUnits (some h) f o e = some h) ∧
    (∀ (f : Int) (o e : Option Int), resolveTotalUnits none (some f) o e = some f) ∧
    (∀ (o : Option Int) (e : Int), resolveTotalUnits none none o (some e) = some e) ∧
    (∀ o : Option Int, resolveTotalUnits none none o none = o) ∧
    totalFromExpos expos10 = 10 ∧
    resolveTotalUnits (some 5) (some 3) (some 7) (some (totalFromExpos expos10)) = some 5 :=
  ⟨fun _ _ _ _ => rfl, fun _ _ _ => rfl, fun _ _ => rfl, fun _ => rfl, rfl, rfl⟩

/-- Claim C3 (confirmed).  The grading examples: ground=3/underground=0/
    households=2 grades 3; ground=1/underground=1/households=1 grades 2;
    ground=5/households=1 grades 1; and the code-1 test is checked first —
    whenever its condition holds the grade is 1, whatever the later cases
    would say. -/
theorem c3_grading_order_and_examples :
    run (Except.ok [recGrade3]) (Except.ok []) today0 true true = Except.ok 3 ∧
    run (Except.ok [recGrade2]) (Except.ok []) today0 true true = Except.ok 2 ∧
    run (Except.ok [recGrade1]) (Except.ok []) today0 true true = Except.ok 1 ∧
    (∀ (g u h f o tu : Option Int),
      2 ≤ g.getD 0 → (optEqInt h 1 || optEqInt f 1 || optEqInt o 1) = true →
      finalGrade g u h f o tu = Except.ok 1) := by
  refine ⟨rfl, rfl, rfl, ?_⟩
  intro g u h f o tu h1 h2
  simp [finalGrade, h1, h2]

/-- Witness for C3: a concrete grading where the code-1, code-2 and code-3
    conditions would all be satisfiable but the first match wins. -/
theorem c3_code1_precedence_witness :
    finalGrade (some 3) (some 0) (some 1) (some 2) none (some 3) = Except.ok 1 :=
  c3_grading_order_and_examples.2.2.2 (some 3) (some 0) (some 1) (some 2) none (some 3)
    (by decide) (by decide)

/-- Claim C5 (confirmed).  A single-family record with no area field is still
    eligible (grade 1 here); a multi-household record with area 700㎡ is
    disqualified; a record whose only failing type-constraint carries a real
    value (다세대 with 5 ground floors) is disqualified; for single-family
    records with unknown area the constraint stage produces no hard failure
    whatever the other inputs; missing-value outcomes are never hard
    failures, while a failing outcome with a real-value detail is. -/
theorem c5_soft_vs_hard_failure :
    run (Except.ok [recNoArea]) (Except.ok []) today0 true true = Except.ok 1 ∧
    run (Except.ok [recBigArea]) (Except.ok []) today0 true true = Except.ok 0 ∧
    run (Except.ok [recHardFail]) (Except.ok []) today0 true true = Except.ok 0 ∧
    (∀ (g tu : Option Int),
      (checkHouseTypeConstraints "단독주택" g none tu).filter hardFailPred = []) ∧
    (∀ name : String, hardFailPred (needRes name) = false) ∧
    hardFailPred ⟨false, "다세대: 지상층수 ≤ 4", "지상층수=" ++ intStr 5⟩ = true := by
  refine ⟨rfl, rfl, rfl, ?_, fun _ => rfl, rfl⟩
  intro g tu
  cases g <;> cases tu <;> rfl

/-- Claim C7 (confirmed).  `classifyStructure` is total with range
    {reinforced-concrete, brick, steel-frame, wood, the unknown sentinel,
    the input itself}; empty (or all-space) input gives the sentinel;
    reinforced-concrete requires both tokens; brick precedes steel-frame;
    unmatched non-empty input passes through verbatim. -/
theorem c7_classify_structure_total_and_priority :
    (∀ s : String, classifyStructure s ∈
      ["철근콘크리트(RC)", "벽돌", "철골", "목구조", "미확인", s]) ∧
    classifyStructure "" = "미확인" ∧
    classifyStructure " " = "미확인" ∧
    classifyStructure "철근 콘크리트" = "철근콘크리트(RC)" ∧
    classifyStructure "철근조" = "철근조" ∧
    classifyStructure "벽돌철골" = "벽돌" ∧
    classifyStructure "조적조" = "조적조" := by
  refine ⟨?_, rfl, rfl, rfl, rfl, rfl, rfl⟩
  intro s
  simp only [classifyStructure]
  split_ifs <;> simp

/-- Claim C8 (refuted — code bug).  The parser is NOT total: the guard at
    line 143 uses `str.isdigit`, which accepts digit-classified characters
    (such as '²') that the unguarded `int()` calls at line 145 reject, so
    the 8-character input "²²²²²²²²" raises an uncaught `ValueError` instead
    of parsing to absent — while strings of non-ASCII decimal (Nd) digits
    such as Arabic-Indic "٢٠٢٤٠٢٢٩" do parse to a date.  On every other
    path the claim's behaviour holds: absent input, strings that are not 8
    digit characters, and 8-decimal-digit strings that are not a
    constructible date (such as "20230229" — 2023 is not a leap year) all
    yield absent, and an absent date gives an absent ("not computable")
    age. -/
theorem c8_date_parser_not_total :
    parseYyyymmdd (some "²²²²²²²²") = Except.error PyExc.valueError ∧
    parseYyyymmdd (some "\u0662\u0660\u0662\u0664\u0660\u0662\u0662\u0669") =
      Except.ok (some ⟨2024, 2, 29⟩) ∧
    parseYyyymmdd none = Except.ok none ∧
    parseYyyymmdd (some "20230229") = Except.ok none ∧
    parseYyyymmdd (some "2023022") = Except.ok none ∧
    parseYyyymmdd (some "20231301") = Except.ok none ∧
    parseYyyymmdd (some "a0230229") = Except.ok none ∧
    parseYyyymmdd (some "20240229") = Except.ok (some ⟨2024, 2, 29⟩) ∧
    (∀ s : String,
      ((strip s).toList.length == 8 && (strip s).toList.all pyIsDigit) = false →
      parseYyyymmdd (some s) = Except.ok none) ∧
    (∀ today : YMD, yearsSince none today = none) := by
  refine ⟨rfl, rfl, rfl, rfl, rfl, rfl, rfl, rfl, ?_, fun _ => rfl⟩
  intro s h
  simp only [parseYyyymmdd]
  rw [h]
  simp

/-- Witness for C8: a concrete malformed (3-character) date string parses to
    absent. -/
theorem c8_malformed_witness : parseYyyymmdd (some "199") = Except.ok none :=
  c8_date_parser_not_total.2.2.2.2.2.2.2.2.1 "199" (by decide)

/-- Counterexample for C4.  A record whose illegal flag is "1" but whose
    use-approval-date field is eight superscript-two characters makes `run`
    raise the date parser's `ValueError` (the claim says it returns
    disqualified code 0): `use_apr` is computed at line 339, before the
    illegality gate at line 411. -/
theorem c4_illegal_poison_date_counterexample :
    recIllegalPoisonDate.violBldYn = some "1" ∧
    run (Except.ok [recIllegalPoisonDate]) (Except.ok []) today0 true true =
      Except.error PyExc.valueError ∧
    run (Except.ok [recIllegalPoisonDate]) (Except.ok []) today0 true true ≠
      Except.ok 0 := by
  refine ⟨rfl, rfl, ?_⟩
  intro h
  exact Except.noConfusion ((rfl :
    (Except.error PyExc.valueError : Except PyExc Int) =
      run (Except.ok [recIllegalPoisonDate]) (Except.ok []) today0 true true).trans h)

/-- Claim C4 (corrected).  A record whose illegal-construction flag field is
    "1" is disqualified with code 0 before the age, category, keyword, area,
    per-type and structure checks, whatever its other fields — provided the
    use-approval-date field does not trigger the date parser's uncaught
    `ValueError` (the C8 bug), which is computed before the gate and
    pre-empts it. -/
theorem c4_illegality_gate_short_circuits (t : TitleRecord) (rest : List TitleRecord)
    (units : List ExposUnit) (today : YMD) (rc iu : Bool) (useApr : Option YMD)
    (hd : parseYyyymmdd t.useAprDay = Except.ok useApr)
    (h : t.violBldYn = some "1") :
    run (Except.ok (t :: rest)) (Except.ok units) today rc iu = Except.ok 0 := by
  rw [run_ok_cons t rest units today rc iu useApr hd]
  have hv := recordIsViol_of_flag t h
  simp [evalTitle, hv]

/-- Witness for C4: an otherwise fully compliant single-family record with
    the illegal flag set (and a well-behaved absent date) is disqualified. -/
theorem c4_illegal_witness :
    run (Except.ok [recIllegal]) (Except.ok []) today0 true true = Except.ok 0 :=
  c4_illegality_gate_short_circuits recIllegal [] [] today0 true true none rfl rfl

/-- Claim C6 (confirmed).  `detectHouseType` is total over the seven fixed
    labels; the priority order puts multi-household first, so text containing
    both the multi-household and apartment tokens classifies as
    multi-household; the umbrella term in the main purpose gives the
    subtype-unknown sentinel, and otherwise the unknown sentinel. -/
theorem c6_detect_house_type_total_and_priority :
    (∀ m e : String, detectHouseType m e ∈
      ["다가구주택", "다세대주택", "연립주택", "아파트", "단독주택", "공동주택(세부미상)", "미상"]) ∧
    detectHouseType "다가구주택 아파트" "" = "다가구주택" ∧
    (∀ m e : String, strContains (hayOf m e) "다가구" = true →
      detectHouseType m e = "다가구주택") ∧
    detectHouseType "공동주택" "" = "공동주택(세부미상)" ∧
    detectHouseType "업무시설" "" = "미상" := by
  refine ⟨?_, rfl, ?_, rfl, rfl⟩
  · intro m e
    simp only [detectHouseType]
    split_ifs <;> simp
  · intro m e h
    simp only [detectHouseType]
    rw [h]
    simp

/-- Witness for C6: purpose text containing the multi-household token (next
    to an apartment token) classifies as multi-household. -/
theorem c6_priority_witness : detectHouseType "주상복합 다가구" "아파트" = "다가구주택" :=
  c6_detect_house_type_total_and_priority.2.2.1 "주상복합 다가구" "아파트" (by decide)

/-- Claim C9 (confirmed).  A blank lot-sub is normalized to "0000" before the
    dedup key is built, so two rows that differ only in lot-sub being blank
    versus "0000" share one key, and the batch keeps (hence evaluates)
    exactly one of them. -/
theorem c9_lot_sub_normalization_dedup :
    (∀ (s b n j1 j2 : Option String),
      strip (j1.getD "") = "" → strip (j2.getD "") = "0000" →
      rowKey ⟨s, b, n, j1⟩ = rowKey ⟨s, b, n, j2⟩) ∧
    (∀ (s b n j1 j2 : Option String),
      (strip (s.getD "") == "") = false → (strip (b.getD "") == "") = false →
      (strip (n.getD "") == "") = false →
      strip (j1.getD "") = "" → strip (j2.getD "") = "0000" →
      (uniqueAddresses [⟨s, b, n, j1⟩, ⟨s, b, n, j2⟩]).length = 1) := by
  have e1 : ∀ (s b n : Option String) (j : Option String), strip (j.getD "") = "" →
      normJi ⟨s, b, n, j⟩ = "0000" := by
    intro s b n j hj
    simp [normJi, hj]
  have e2 : ∀ (s b n : Option String) (j : Option String), strip (j.getD "") = "0000" →
      normJi ⟨s, b, n, j⟩ = "0000" := by
    intro s b n j hj
    simp [normJi, hj]
  constructor
  · intro s b n j1 j2 h1 h2
    simp [rowKey, e1 s b n j1 h1, e2 s b n j2 h2]
  · intro s b n j1 j2 hs hb hn h1 h2
    simp [uniqueAddresses, dedupLoop, rowKey, hs, hb, hn,
      e1 s b n j1 h1, e2 s b n j2 h2]

/-- Witness for C9: the concrete pair from the spec's example, identical keys
    except lot-sub "" versus "0000", is deduplicated to one evaluation. -/
theorem c9_blank_lot_sub_witness :
    (uniqueAddresses [⟨some "11590", some "10400", some "49", some ""⟩,
      ⟨some "11590", some "10400", some "49", some "0000"⟩]).length = 1 :=
  c9_lot_sub_normalization_dedup.2 (some "11590") (some "10400") (some "49")
    (some "") (some "0000") (by decide) (by decide) (by decide) (by decide) (by decide)

/-- The constraint list for a row-house with a present area, by cases on the
    optional ground-floor count. -/
theorem yeonlip_constraints (g tu : Option Int) (a : ℚ) :
    checkHouseTypeConstraints "연립주택" g (some a) tu =
      (if g.isNone then [needRes "지상층수"] else []) ++
      (optList g (fun gg => ⟨decide (gg ≤ 4), "연립: 지상층수 ≤ 4", "지상층수=" ++ intStr gg⟩) ++
       [⟨decide ((660 : ℚ) < a), "연립: 면적 > 660㎡", fmtArea a⟩]) := by
  cases g <;> rfl

/-- A record classified row-house whose area is known is disqualified by the
    gate chain: with area at least 230㎡ the floor-area ceiling fails, and
    below 230㎡ the row-house type constraint `area > 660㎡` hard-fails. -/
theorem rowhouse_known_area_disqualified (t : TitleRecord) (useApr : Option YMD)
    (d : Option (List ExposUnit)) (today : YMD) (rc : Bool) (a : ℚ)
    (hHT : houseTypeOf t = "연립주택") (hA : areaOf t = some a) :
    evalTitle t useApr d today rc = Except.ok 0 := by
  have hallow : ALLOWED_HOUSE_TYPES.contains (houseTypeOf t) = true := by
    rw [hHT]
    rfl
  by_cases hv : recordIsViol t = true
  · simp [evalTitle, hv]
  · have hv' : recordIsViol t = false := by simpa using hv
    by_cases hk : (disallowedHits t).isEmpty = true
    · by_cases hag : areaGateOk t = true
      · have ha230 : a < 230 := by
          have hx := hag
          unfold areaGateOk at hx
          rw [hA] at hx
          exact of_decide_eq_true hx
        have hok : decide ((660 : ℚ) < a) = false := by
          simp only [decide_eq_false_iff_not]
          intro hgt
          linarith
        have hmem : (⟨decide ((660 : ℚ) < a), "연립: 면적 > 660㎡", fmtArea a⟩ : RuleResult)
            ∈ ruleResultsOf t d := by
          unfold ruleResultsOf
          rw [hHT, hA, yeonlip_constraints]
          simp
        have hpred : hardFailPred
            (⟨decide ((660 : ℚ) < a), "연립: 면적 > 660㎡", fmtArea a⟩ : RuleResult) = true := by
          simp [hardFailPred, hok, fmtArea_sentinel_free]
        have hne : (hardFails t d).isEmpty = false := by
          have hmf := List.mem_filter.mpr ⟨hmem, hpred⟩
          have hne0 : hardFails t d ≠ [] := List.ne_nil_of_mem hmf
          cases hl : hardFails t d with
          | nil => exact absurd hl hne0
          | cons x xs => rfl
        simp [evalTitle, hv', hallow, hk, hag, hne]
      · have hag' : areaGateOk t = false := by simpa using hag
        simp [evalTitle, hv', hallow, hag']
    · have hk' : (disallowedHits t).isEmpty = false := by simpa using hk
      simp [evalTitle, hv', hallow, hk']

/-- Claim C10 (confirmed).  Every record that reaches the floor-area stage —
    so its pre-gate date parse returned rather than raising, captured by
    `hd` — that is classified as row-house (연립주택) and has a present,
    parseable floor area is disqualified (code 0): the 230㎡ registration
    ceiling wants the area strictly below 230 while the row-house table row
    wants it above 660, so one of the two stages always hard-fails; only an
    absent area lets a row-house through. -/
theorem c10_row_house_with_area_disqualified (t : TitleRecord) (rest : List TitleRecord)
    (units : List ExposUnit) (today : YMD) (rc iu : Bool) (useApr : Option YMD) (a : ℚ)
    (hd : parseYyyymmdd t.useAprDay = Except.ok useApr)
    (hHT : houseTypeOf t = "연립주택") (hA : areaOf t = some a) :
    run (Except.ok (t :: rest)) (Except.ok units) today rc iu = Except.ok 0 := by
  rw [run_ok_cons t rest units today rc iu useApr hd]
  exact rowhouse_known_area_disqualified t useApr _ today rc a hHT hA

/-- Witness for C10: a concrete row-house record with area 100㎡ (inside the
    230㎡ ceiling, hence failing the `> 660㎡` table row) is disqualified. -/
theorem c10_row_house_witness :
    run (Except.ok [recRowHouse]) (Except.ok []) today0 true true = Except.ok 0 :=
  c10_row_house_with_area_disqualified recRowHouse [] [] today0 true true none 100
    rfl (by decide) (by decide)

end Bnb
